import Mathlib

/-!
# Verification of the portfolio-performance pipeline

Shallow embedding of `portfolio_performance.py` (RockSciTestTask).
Tables are modelled as labelled grids of optional rationals: `none` models
a pandas `NaN` (undefined) cell, `some q` a defined float value.  Asset,
currency and date identifiers are abstracted as natural numbers; a date is
its `YYYYMMDD` code (numeric order coincides with chronological order).
Division by zero (pandas `inf`) is outside the model: the lifted division
returns `none` there, and every theorem touching the return formula carries
a nonzero-denominator hypothesis.
-/

namespace PortfolioPerf

/-- Lifted multiplication on optional values: `NaN` propagates. -/
def omul : Option ℚ → Option ℚ → Option ℚ
  | some x, some y => some (x * y)
  | _, _ => none

/-- Lifted subtraction on optional values: `NaN` propagates. -/
def osub : Option ℚ → Option ℚ → Option ℚ
  | some x, some y => some (x - y)
  | _, _ => none

/-- Lifted division on optional values: `NaN` propagates; a zero
denominator (pandas `±inf` or `NaN`) is mapped to `none`. -/
def odiv : Option ℚ → Option ℚ → Option ℚ
  | some x, some y => if y = 0 then none else some (x / y)
  | _, _ => none

/-- A date-indexed pandas `DataFrame`: a list of date labels (row order),
a list of column labels, and a cell function by row position and column. -/
structure DTable where
  dates : List ℕ
  cols : List ℕ
  entry : ℕ → ℕ → Option ℚ

/-- Cell access guarded by table bounds: positions outside the index or
columns outside the table read as undefined. -/
def DTable.get (T : DTable) (i c : ℕ) : Option ℚ :=
  if i < T.dates.length ∧ c ∈ T.cols then T.entry i c else none

/-- Label-based row lookup (first occurrence of the date label);
an absent label reads as undefined, as in a pandas reindex/alignment. -/
def DTable.getByDate (T : DTable) (d c : ℕ) : Option ℚ :=
  T.get (T.dates.indexOf d) c

/-- `df.diff()`: row 0 is all-`NaN`; row `i` is `X[i] - X[i-1]`. -/
def DTable.diffT (T : DTable) : DTable :=
  { T with entry := fun i c => if i = 0 then none else osub (T.get i c) (T.get (i - 1) c) }

/-- `df.shift(1)`: row 0 is all-`NaN`; row `i` holds `X[i-1]`. -/
def DTable.shiftT (T : DTable) : DTable :=
  { T with entry := fun i c => if i = 0 then none else T.get (i - 1) c }

/-- `A.div(B)` for two frames sharing the same index and columns (the only
use in the source: both operands derive from one frame, so pandas keeps
positional alignment). -/
def DTable.divSame (A B : DTable) : DTable :=
  { dates := A.dates, cols := A.cols, entry := fun i c => odiv (A.get i c) (B.get i c) }

/-- `FormalData.__get_an_attitude`: `df.diff().div(df.shift(1))`. -/
def getAnAttitude (T : DTable) : DTable :=
  T.diffT.divSame T.shiftT

/-- `A.mul(B)`: elementwise product, columns aligned by label on the union.
In the pipeline both operands carry the same reindexed date index, so the
result index is modelled as `A`'s; `B`'s rows are looked up by date label. -/
def DTable.mulT (A B : DTable) : DTable where
  dates := A.dates
  cols := A.cols.union B.cols
  entry := fun i c => omul (A.get i c) (B.getByDate (A.dates.getD i 0) c)

/-- `df.reindex(idx)`: rows selected by label from the old frame;
labels absent from the old index become all-`NaN` rows. -/
def DTable.reindexT (T : DTable) (idx : List ℕ) : DTable where
  dates := idx
  cols := T.cols
  entry := fun i c => T.getByDate (idx.getD i 0) c

/-- Forward-fill value at row `i`: the last defined observation at a
position `≤ i` of the column, `none` if there is none yet. -/
def ffillVal (T : DTable) : ℕ → ℕ → Option ℚ
  | 0, c => T.get 0 c
  | i + 1, c =>
    match T.get (i + 1) c with
    | some v => some v
    | none => ffillVal T i c

/-- `FormalData._normalize_a_frame`: `df.fillna(method='ffill')`. -/
def DTable.ffillT (T : DTable) : DTable :=
  { T with entry := fun i c => ffillVal T i c }

/-! ## Series and the strict aggregation -/

/-- `series.sum(skipna=False)` over a row of optional values: undefined
as soon as one summand is undefined (an empty row sums to `0`). -/
def sumStrict (l : List (Option ℚ)) : Option ℚ :=
  if l.all Option.isSome then some (l.filterMap id).sum else none

/-- `PortfolioData.__get_a_portfolio` core:
`df.mul(weights).sum(axis=1, skipna=False)` — the product aligns the two
frames on the union of their asset columns, then each date's row is summed
strictly.  The result is the date-indexed portfolio return series. -/
def portfolioAgg (R W : DTable) : List (ℕ × Option ℚ) :=
  R.dates.map fun d =>
    (d, sumStrict ((R.cols.union W.cols).map fun c => omul (R.getByDate d c) (W.getByDate d c)))

/-- `series.add(1)`. -/
def add1L (l : List (ℕ × Option ℚ)) : List (ℕ × Option ℚ) :=
  l.map fun p => (p.1, p.2.map fun x => x + 1)

/-- `series.cumprod()` with pandas default `skipna=True`: an undefined
entry stays undefined in the output, while the running product `acc`
carries past it. -/
def cumprodL (acc : ℚ) : List (ℕ × Option ℚ) → List (ℕ × Option ℚ)
  | [] => []
  | (d, none) :: r => (d, none) :: cumprodL acc r
  | (d, some x) :: r => (d, some (acc * x)) :: cumprodL (acc * x) r

/-- `series[start:end]` on a monotone `DatetimeIndex`: label-based
slicing, inclusive of BOTH boundary labels. -/
def sliceSeries (l : List (ℕ × Option ℚ)) (a b : ℕ) : List (ℕ × Option ℚ) :=
  l.filter fun p => decide (a ≤ p.1) && decide (p.1 ≤ b)

/-- A named pandas `Series`: the public result shape. -/
structure PSeries where
  entries : List (ℕ × Option ℚ)
  name : String
deriving DecidableEq

/-- `PortfolioPerformanceData.__portfolio_performance`:
`df.add(1).cumprod().rename(name)[start_date:end_date]`, with the
`df_checker` wrapper turning an unavailable input series into `None`. -/
def portfolioPerformance :
    Option (List (ℕ × Option ℚ)) → ℕ → ℕ → String → Option PSeries
  | none, _, _, _ => none
  | some l, a, b, nm => some ⟨sliceSeries (cumprodL 1 (add1L l)) a b, nm⟩

/-! ## Currency resolver -/

/-- The `currencies` table: one row per asset, a single `currency` column
giving each asset's settlement currency code (or `NaN`). -/
structure CurTable where
  assets : List ℕ
  curOf : ℕ → Option ℕ

/-- The merge step of `FormalData.__get_currency_raw`:
`exchanges_df.T.merge(currency_df, how='right', right_on='currency',
left_index=True).T.drop('currency')` — a date×asset frame whose column for
asset `a` is the `exchanges` column named by `a`'s currency code, all-`NaN`
when that code is undefined or not an `exchanges` column. -/
def mergeStep (cur : CurTable) (ex : DTable) : DTable where
  dates := ex.dates
  cols := cur.assets
  entry := fun i a => (cur.curOf a).bind fun code => ex.get i code

/-- `merge_df.isna().all()` for one column. -/
def colAllNone (T : DTable) (c : ℕ) : Bool :=
  (List.range T.dates.length).all fun i => (T.get i c).isNone

/-- The fill step of `FormalData.__get_currency_raw`: columns that are
entirely `NaN` are filled with the constant `1`. -/
def fillAllNone (T : DTable) : DTable :=
  { T with entry := fun i c => if colAllNone T c then some 1 else T.get i c }

/-! ## Raw tables, cached state and the lazy pipeline -/

/-- The `_df_raw` dict after construction: each table either usable or
`None`. -/
structure RawTables where
  currencies : Option CurTable
  exchanges : Option DTable
  prices : Option DTable
  weights : Option DTable

/-- `FormalData.__get_currency_raw`: `None` unless both `currencies` and
`exchanges` are available. -/
def getCurrencyRaw (raw : RawTables) : Option DTable :=
  match raw.currencies, raw.exchanges with
  | some cur, some ex => some (fillAllNone (mergeStep cur ex))
  | _, _ => none

/-- The instance state: raw tables plus the four cached derived frames
(`_df_asset`, `_df_currency`, `_df_currency_raw`, `_df_total`), each
`none` until first computed. -/
structure FormalState where
  raw : RawTables
  dfAsset : Option DTable
  dfCurrency : Option DTable
  rawCurrency : Option DTable
  dfTotal : Option DTable

/-- `df_checker`-wrapped `__get_an_attitude`: `None` input yields `None`. -/
def attitudeOpt : Option DTable → Option DTable
  | none => none
  | some t => some (getAnAttitude t)

/-- `FormalData._generate_asset`. -/
def generateAsset (s : FormalState) : FormalState :=
  if s.dfAsset.isSome then s else { s with dfAsset := attitudeOpt s.raw.prices }

/-- `FormalData._generate_currency`. -/
def generateCurrency (s : FormalState) : FormalState :=
  let s1 := if s.rawCurrency.isSome then s
            else { s with rawCurrency := getCurrencyRaw s.raw }
  if s1.dfCurrency.isSome then s1
  else { s1 with dfCurrency := attitudeOpt s1.rawCurrency }

/-- `FormalData.__get_total_raw`: `None` without `prices`; resolves (and
caches) the currency table, then multiplies. -/
def getTotalRaw (s : FormalState) : Option DTable × FormalState :=
  match s.raw.prices with
  | none => (none, s)
  | some pr =>
    let s1 := if s.rawCurrency.isSome then s
              else { s with rawCurrency := getCurrencyRaw s.raw }
    match s1.rawCurrency with
    | none => (none, s1)
    | some cr => (some (pr.mulT cr), s1)

/-- `FormalData._generate_total`. -/
def generateTotal (s : FormalState) : FormalState :=
  if s.dfTotal.isSome then s
  else
    let p := getTotalRaw s
    { p.2 with dfTotal := attitudeOpt p.1 }

/-- `PortfolioData.__get_a_portfolio` with its `df_checker` wrapper:
`None` when the input frame is unavailable or `weights` is `None`. -/
def getAPortfolio (s : FormalState) : Option DTable → Option (List (ℕ × Option ℚ))
  | none => none
  | some t =>
    match s.raw.weights with
    | none => none
    | some w => some (portfolioAgg t w)

/-- `PortfolioData._get_asset_portfolio` (property: computes the cache,
then aggregates). -/
def getAssetPortfolio (s : FormalState) : Option (List (ℕ × Option ℚ)) × FormalState :=
  let s1 := generateAsset s
  (getAPortfolio s1 s1.dfAsset, s1)

/-- `PortfolioData._get_currency_portfolio`. -/
def getCurrencyPortfolio (s : FormalState) : Option (List (ℕ × Option ℚ)) × FormalState :=
  let s1 := generateCurrency s
  (getAPortfolio s1 s1.dfCurrency, s1)

/-- `PortfolioData._get_total_portfolio`. -/
def getTotalPortfolio (s : FormalState) : Option (List (ℕ × Option ℚ)) × FormalState :=
  let s1 := generateTotal s
  (getAPortfolio s1 s1.dfTotal, s1)

/-! ## Date normalisation (`try_convert_date_time`, `date_checker`) -/

/-- A date-like argument to the public query surface: an already-canonical
timestamp (its `YYYYMMDD` code), a character string, or an integer. -/
inductive DateArg where
  | ts (d : ℕ)
  | strA (s : List Char)
  | intA (n : ℕ)

/-- Numeric value of a digit string. -/
def digitsToNat (l : List Char) : ℕ :=
  l.foldl (fun a c => a * 10 + (c.toNat - 48)) 0

/-- Gregorian leap year. -/
def isLeap (y : ℕ) : Bool :=
  (y % 4 == 0 && y % 100 != 0) || y % 400 == 0

/-- Length of a month. -/
def daysInMonth (y m : ℕ) : ℕ :=
  if m = 2 then (if isLeap y then 29 else 28)
  else if m = 4 ∨ m = 6 ∨ m = 9 ∨ m = 11 then 30
  else 31

/-- A valid `YYYYMMDD` calendar date inside the `pd.Timestamp` range
(1677-09-22 … 2262-04-11, the days expressible as nanosecond epochs). -/
def validYMD (y m d : ℕ) : Bool :=
  1 ≤ m && m ≤ 12 && 1 ≤ d && d ≤ daysInMonth y m &&
    16770922 ≤ y * 10000 + m * 100 + d && y * 10000 + m * 100 + d ≤ 22620411

/-- `pd.to_datetime(arg, format='%Y%m%d')` on a digit string: requires
exactly eight digits forming a valid in-range date. -/
def parseYYYYMMDD (l : List Char) : Option ℕ :=
  if l.length = 8 then
    let y := digitsToNat (l.take 4)
    let m := digitsToNat ((l.drop 4).take 2)
    let d := digitsToNat (l.drop 6)
    if validYMD y m d then some (y * 10000 + m * 100 + d) else none
  else none

/-- `try_convert_date_time`: a timestamp passes through; anything else is
stringified, stripped of non-digit characters and parsed as `YYYYMMDD`;
failure is `False` (here `none`). -/
def tryConvertDateTime : DateArg → Option ℕ
  | .ts d => some d
  | .strA s => parseYYYYMMDD (s.filter Char.isDigit)
  | .intA n => parseYYYYMMDD ((Nat.repr n).toList.filter Char.isDigit)

/-! ## The three public query operations

Each is guarded by `date_checker` (raise `TypeError`, modelled as
`Except.error`, when a bound fails to convert — the wrapped method is then
never entered, so the state is returned untouched). -/

/-- `calculate_asset_performance`. -/
def calculateAssetPerformance (s : FormalState) (a b : DateArg) :
    Except Unit (Option PSeries) × FormalState :=
  match tryConvertDateTime a, tryConvertDateTime b with
  | some da, some db =>
    let p := getAssetPortfolio s
    (.ok (portfolioPerformance p.1 da db "Pt"), p.2)
  | _, _ => (.error (), s)

/-- `calculate_currency_performance`. -/
def calculateCurrencyPerformance (s : FormalState) (a b : DateArg) :
    Except Unit (Option PSeries) × FormalState :=
  match tryConvertDateTime a, tryConvertDateTime b with
  | some da, some db =>
    let p := getCurrencyPortfolio s
    (.ok (portfolioPerformance p.1 da db "CPt"), p.2)
  | _, _ => (.error (), s)

/-- `calculate_total_performance`. -/
def calculateTotalPerformance (s : FormalState) (a b : DateArg) :
    Except Unit (Option PSeries) × FormalState :=
  match tryConvertDateTime a, tryConvertDateTime b with
  | some da, some db =>
    let p := getTotalPortfolio s
    (.ok (portfolioPerformance p.1 da db "TPt"), p.2)
  | _, _ => (.error (), s)

/-! ## Construction (`PortfolioPerformanceData.__init__`) -/

/-- The loader's view of one date-indexed CSV: absent, or present
together with the fact of its index being unparsable (corrupted). -/
structure RawInputs where
  currencies : Option CurTable
  exchanges : Option (DTable × Bool)
  prices : Option (DTable × Bool)
  weights : Option (DTable × Bool)

/-- The date-indexed frames that parse (`_get_full_range_for_dates`
keeps a frame only when `pd.to_datetime(data.index)` succeeds; the
`currencies` frame is skipped by its `asset id` index name). -/
def goodFrames (r : RawInputs) : List DTable :=
  [r.exchanges, r.prices, r.weights].filterMap fun x =>
    x.bind fun p => if p.2 then none else some p.1

/-- Minimum of a date list (`0` only on the empty list). -/
def minDate (l : List ℕ) : ℕ := l.foldr Nat.min (l.headD 0)

/-- Maximum of a date list. -/
def maxDate (l : List ℕ) : ℕ := l.foldr Nat.max 0

/-- `_get_full_range_for_dates`: the contiguous daily range from the
earliest to the latest date over all usable date frames; `none` when no
frame is usable (the concatenation being empty — all usable frames empty —
would raise in the original and is mapped to `none` here as well). -/
def generalIndex (r : RawInputs) : Option (List ℕ) :=
  let ds := (goodFrames r).foldr (fun t acc => t.dates ++ acc) []
  if ds.isEmpty then none
  else some (List.range' (minDate ds) (maxDate ds - minDate ds + 1))

/-- Post-construction form of one date-indexed raw table: a corrupted
frame is replaced by `None`; a usable one is reindexed onto the general
range (no reindex when there is none, matching `reindex(None)`) and
forward-filled. -/
def alignFrame (gi : Option (List ℕ)) : Option (DTable × Bool) → Option DTable
  | none => none
  | some (_, true) => none
  | some (t, false) =>
    match gi with
    | none => some t.ffillT
    | some idx => some ((t.reindexT idx).ffillT)

/-- `PortfolioPerformanceData.__init__` after the CSV loads: builds the
`_df_raw` dict and the empty caches. -/
def initState (r : RawInputs) : FormalState :=
  let gi := generalIndex r
  { raw := { currencies := r.currencies
             exchanges := alignFrame gi r.exchanges
             prices := alignFrame gi r.prices
             weights := alignFrame gi r.weights }
    dfAsset := none, dfCurrency := none, rawCurrency := none, dfTotal := none }

/-! ## Specification-side expressions and concrete sample data -/

/-- Independent expression of the cumulative compounding: the product of
`1 + r` over the defined returns among the first `i + 1` entries of a
series (the value "immediately before the series starts" being `1`). -/
def takeProd (l : List (ℕ × Option ℚ)) (i : ℕ) : ℚ :=
  (((l.take (i + 1)).filterMap Prod.snd).map fun r => r + 1).prod

/-- Sample `exchanges` table: dates 0,1,2 × currency 100, rate 1. -/
def exS : DTable := ⟨[0, 1, 2], [100], fun _ _ => some 1⟩

/-- Sample `prices` table: dates 0,1,2 × asset 10, prices 1, 2, 4. -/
def prS : DTable := ⟨[0, 1, 2], [10], fun i _ => [some 1, some 2, some 4].getD i none⟩

/-- Sample `weights` table: dates 0,1,2 × asset 10, weight 1. -/
def wS : DTable := ⟨[0, 1, 2], [10], fun _ _ => some 1⟩

/-- Sample `currencies` table: asset 10 settles in currency 100. -/
def curS : CurTable := ⟨[10], fun a => if a = 10 then some 100 else none⟩

/-- Sample `currencies` table with a second asset (11) whose currency
code (999) is not an `exchanges` column. -/
def curS2 : CurTable := ⟨[10, 11], fun a => if a = 10 then some 100 else some 999⟩

/-- A fully-loaded sample instance built from the sample tables. -/
def stS : FormalState :=
  initState ⟨some curS, some (exS, false), some (prS, false), some (wS, false)⟩

/-- Single-date return table over asset 10 only, all cells defined. -/
def rOnly : DTable := ⟨[0], [10], fun _ _ => some 1⟩

/-- Single-date weights table over assets 10 and 11, all cells defined. -/
def wWide : DTable := ⟨[0], [10, 11], fun _ _ => some 1⟩

/-! ## Basic lemmas on the lifted arithmetic -/

theorem omul_none_left (b : Option ℚ) : omul none b = none := by
  cases b <;> rfl

theorem omul_none_right (a : Option ℚ) : omul a none = none := by
  cases a <;> rfl

theorem odiv_none_left (b : Option ℚ) : odiv none b = none := by
  cases b <;> rfl

theorem DTable.get_eq_some_imp {T : DTable} {i c : ℕ} {x : ℚ}
    (h : T.get i c = some x) : i < T.dates.length ∧ c ∈ T.cols := by
  by_cases hg : i < T.dates.length ∧ c ∈ T.cols
  · exact hg
  · rw [DTable.get, if_neg hg] at h
    exact absurd h (by simp)

/-! ## Lemmas on the strict sum -/

theorem sumStrict_eq_none {l : List (Option ℚ)} (h : none ∈ l) :
    sumStrict l = none := by
  rw [sumStrict, if_neg]
  intro hall
  rw [List.all_eq_true] at hall
  simpa using hall _ h

theorem sumStrict_eq_some {l : List (Option ℚ)} (h : ∀ a ∈ l, a.isSome) :
    sumStrict l = some ((l.map fun a => a.getD 0).sum) := by
  rw [sumStrict, if_pos (by rw [List.all_eq_true]; exact h)]
  congr 1
  induction l with
  | nil => rfl
  | cons a t ih =>
    cases a with
    | none => exact absurd (h _ (List.mem_cons_self _ _)) (by simp)
    | some x => simp [ih fun y hy => h y (List.mem_cons_of_mem _ hy)]

theorem portfolioAgg_getElem? (R W : DTable) (i d : ℕ) (h : R.dates[i]? = some d) :
    (portfolioAgg R W)[i]? = some (d, sumStrict ((R.cols.union W.cols).map
      fun c => omul (R.getByDate d c) (W.getByDate d c))) := by
  rw [portfolioAgg, List.getElem?_map, h, Option.map_some']

/-! ## Lemmas on the cumulative product -/

theorem cumprodL_add1_getElem?_none (l : List (ℕ × Option ℚ)) :
    ∀ (acc : ℚ) (i d : ℕ), l[i]? = some (d, none) →
      (cumprodL acc (add1L l))[i]? = some (d, none) := by
  induction l with
  | nil => intro acc i d h; simp at h
  | cons p t ih =>
    obtain ⟨dh, v⟩ := p
    intro acc i d h
    cases v with
    | none =>
      cases i with
      | zero =>
        simp only [List.getElem?_cons_zero, Option.some_inj, Prod.mk.injEq] at h
        simp [add1L, cumprodL, h.1]
      | succ j =>
        simp only [List.getElem?_cons_succ] at h
        simpa [add1L, cumprodL] using ih acc j d h
    | some xh =>
      cases i with
      | zero => simp at h
      | succ j =>
        simp only [List.getElem?_cons_succ] at h
        simpa [add1L, cumprodL] using ih (acc * (xh + 1)) j d h

theorem cumprodL_add1_getElem?_some (l : List (ℕ × Option ℚ)) :
    ∀ (acc : ℚ) (i d : ℕ) (x : ℚ), l[i]? = some (d, some x) →
      (cumprodL acc (add1L l))[i]? = some (d, some (acc * takeProd l i)) := by
  induction l with
  | nil => intro acc i d x h; simp at h
  | cons p t ih =>
    obtain ⟨dh, v⟩ := p
    intro acc i d x h
    cases v with
    | none =>
      cases i with
      | zero => simp at h
      | succ j =>
        simp only [List.getElem?_cons_succ] at h
        have := ih acc j d x h
        simpa [add1L, cumprodL, takeProd] using this
    | some xh =>
      cases i with
      | zero =>
        simp only [List.getElem?_cons_zero, Option.some_inj, Prod.mk.injEq,
          Option.some.injEq] at h
        simp [add1L, cumprodL, takeProd, h.1]
      | succ j =>
        simp only [List.getElem?_cons_succ] at h
        have h3 : takeProd ((dh, some xh) :: t) (j + 1) = (xh + 1) * takeProd t j := by
          simp [takeProd, List.take_succ_cons, List.filterMap_cons]
        have h4 : (cumprodL acc (add1L ((dh, some xh) :: t)))[j + 1]? =
            (cumprodL (acc * (xh + 1)) (add1L t))[j]? := by
          simp [add1L, cumprodL]
        rw [h4, ih (acc * (xh + 1)) j d x h, h3, ← mul_assoc]

theorem takeProd_succ_of_some {l : List (ℕ × Option ℚ)} {i d : ℕ} {r : ℚ}
    (h : l[i + 1]? = some (d, some r)) :
    takeProd l (i + 1) = takeProd l i * (r + 1) := by
  rw [takeProd, takeProd, List.take_succ, h]
  simp

/-! ## Lemmas on slicing -/

theorem sliceSeries_mem (l : List (ℕ × Option ℚ)) (a b d : ℕ) (v : Option ℚ) :
    (d, v) ∈ sliceSeries l a b ↔ (d, v) ∈ l ∧ a ≤ d ∧ d ≤ b := by
  simp [sliceSeries, List.mem_filter]

theorem sliceSeries_of_lt (l : List (ℕ × Option ℚ)) {a b : ℕ} (h : b < a) :
    sliceSeries l a b = [] := by
  rw [sliceSeries, List.filter_eq_nil_iff]
  intro p _
  simp only [Bool.and_eq_true, decide_eq_true_eq, not_and]
  intro h1 h2
  exact absurd (h1.trans h2) (Nat.not_le.mpr h)

/-! ## Lemmas on construction and the null-propagation pattern -/

theorem alignFrame_absent (gi : Option (List ℕ)) : alignFrame gi none = none := by
  cases gi <;> rfl

theorem alignFrame_corrupted (gi : Option (List ℕ)) (t : DTable) :
    alignFrame gi (some (t, true)) = none := by
  cases gi <;> rfl

theorem alignFrame_usable (gi : Option (List ℕ)) (t : DTable) :
    ∃ u, alignFrame gi (some (t, false)) = some u := by
  cases gi <;> exact ⟨_, rfl⟩

theorem assetPerf_eval (s : FormalState) (t w : DTable) (a b : ℕ)
    (hp : s.raw.prices = some t) (hw : s.raw.weights = some w)
    (hA : s.dfAsset = none) :
    (calculateAssetPerformance s (.ts a) (.ts b)).1 =
      .ok (some ⟨sliceSeries (cumprodL 1 (add1L
        (portfolioAgg (getAnAttitude t) w))) a b, "Pt"⟩) := by
  simp [calculateAssetPerformance, tryConvertDateTime, getAssetPortfolio, generateAsset,
    hA, hp, hw, attitudeOpt, getAPortfolio, portfolioPerformance]

theorem assetPerf_none_of_prices (s : FormalState) (a b : ℕ)
    (hp : s.raw.prices = none) (hA : s.dfAsset = none) :
    (calculateAssetPerformance s (.ts a) (.ts b)).1 = .ok none := by
  simp [calculateAssetPerformance, tryConvertDateTime, getAssetPortfolio, generateAsset,
    hA, hp, attitudeOpt, getAPortfolio, portfolioPerformance]

theorem assetPerf_none_of_weights (s : FormalState) (a b : ℕ)
    (hw : s.raw.weights = none) (hA : s.dfAsset = none) :
    (calculateAssetPerformance s (.ts a) (.ts b)).1 = .ok none := by
  cases hp : s.raw.prices <;>
    simp [calculateAssetPerformance, tryConvertDateTime, getAssetPortfolio, generateAsset,
      hA, hp, hw, attitudeOpt, getAPortfolio, portfolioPerformance]

theorem currencyPerf_eval (s : FormalState) (cu : CurTable) (e w : DTable) (a b : ℕ)
    (hc : s.raw.currencies = some cu) (he : s.raw.exchanges = some e)
    (hw : s.raw.weights = some w) (hR : s.rawCurrency = none) (hC : s.dfCurrency = none) :
    (calculateCurrencyPerformance s (.ts a) (.ts b)).1 =
      .ok (some ⟨sliceSeries (cumprodL 1 (add1L
        (portfolioAgg (getAnAttitude (fillAllNone (mergeStep cu e))) w))) a b, "CPt"⟩) := by
  simp [calculateCurrencyPerformance, tryConvertDateTime, getCurrencyPortfolio,
    generateCurrency, hR, hC, getCurrencyRaw, hc, he, hw, attitudeOpt, getAPortfolio,
    portfolioPerformance]

theorem currencyPerf_none (s : FormalState) (a b : ℕ)
    (h : s.raw.currencies = none ∨ s.raw.exchanges = none)
    (hR : s.rawCurrency = none) (hC : s.dfCurrency = none) :
    (calculateCurrencyPerformance s (.ts a) (.ts b)).1 = .ok none := by
  have hcr : getCurrencyRaw s.raw = none := by
    rcases h with h | h
    · cases hx : s.raw.exchanges <;> simp [getCurrencyRaw, h, hx]
    · cases hx : s.raw.currencies <;> simp [getCurrencyRaw, h, hx]
  simp [calculateCurrencyPerformance, tryConvertDateTime, getCurrencyPortfolio,
    generateCurrency, hR, hC, hcr, attitudeOpt, getAPortfolio, portfolioPerformance]

theorem totalPerf_eval (s : FormalState) (pr : DTable) (cu : CurTable) (e w : DTable)
    (a b : ℕ) (hp : s.raw.prices = some pr) (hc : s.raw.currencies = some cu)
    (he : s.raw.exchanges = some e) (hw : s.raw.weights = some w)
    (hR : s.rawCurrency = none) (hT : s.dfTotal = none) :
    (calculateTotalPerformance s (.ts a) (.ts b)).1 =
      .ok (some ⟨sliceSeries (cumprodL 1 (add1L
        (portfolioAgg (getAnAttitude (pr.mulT (fillAllNone (mergeStep cu e)))) w))) a b,
        "TPt"⟩) := by
  simp [calculateTotalPerformance, tryConvertDateTime, getTotalPortfolio, generateTotal,
    getTotalRaw, hp, hc, he, hw, hR, hT, getCurrencyRaw, attitudeOpt, getAPortfolio,
    portfolioPerformance]

theorem totalPerf_none_of_prices (s : FormalState) (a b : ℕ)
    (hp : s.raw.prices = none) (hT : s.dfTotal = none) :
    (calculateTotalPerformance s (.ts a) (.ts b)).1 = .ok none := by
  simp [calculateTotalPerformance, tryConvertDateTime, getTotalPortfolio, generateTotal,
    getTotalRaw, hp, hT, attitudeOpt, getAPortfolio, portfolioPerformance]

theorem totalPerf_none_of_currency (s : FormalState) (a b : ℕ)
    (h : s.raw.currencies = none ∨ s.raw.exchanges = none)
    (hR : s.rawCurrency = none) (hT : s.dfTotal = none) :
    (calculateTotalPerformance s (.ts a) (.ts b)).1 = .ok none := by
  have hcr : getCurrencyRaw s.raw = none := by
    rcases h with h | h
    · cases hx : s.raw.exchanges <;> simp [getCurrencyRaw, h, hx]
    · cases hx : s.raw.currencies <;> simp [getCurrencyRaw, h, hx]
  cases hp : s.raw.prices <;>
    simp [calculateTotalPerformance, tryConvertDateTime, getTotalPortfolio, generateTotal,
      getTotalRaw, hp, hR, hT, hcr, attitudeOpt, getAPortfolio, portfolioPerformance]

theorem totalPerf_none_of_weights (s : FormalState) (a b : ℕ)
    (hw : s.raw.weights = none) (hR : s.rawCurrency = none) (hT : s.dfTotal = none) :
    (calculateTotalPerformance s (.ts a) (.ts b)).1 = .ok none := by
  cases hp : s.raw.prices with
  | none =>
    simp [calculateTotalPerformance, tryConvertDateTime, getTotalPortfolio, generateTotal,
      getTotalRaw, hp, hT, attitudeOpt, getAPortfolio, portfolioPerformance]
  | some pr =>
    cases hcr : getCurrencyRaw s.raw <;>
      simp [calculateTotalPerformance, tryConvertDateTime, getTotalPortfolio, generateTotal,
        getTotalRaw, hp, hw, hR, hT, hcr, attitudeOpt, getAPortfolio, portfolioPerformance]

theorem currencyPerf_none_of_weights (s : FormalState) (a b : ℕ)
    (hw : s.raw.weights = none) (hR : s.rawCurrency = none) (hC : s.dfCurrency = none) :
    (calculateCurrencyPerformance s (.ts a) (.ts b)).1 = .ok none := by
  cases hcr : getCurrencyRaw s.raw <;>
    simp [calculateCurrencyPerformance, tryConvertDateTime, getCurrencyPortfolio,
      generateCurrency, hR, hC, hcr, hw, attitudeOpt, getAPortfolio, portfolioPerformance]

theorem DTable.getByDate_not_col {T : DTable} {c : ℕ} (h : c ∉ T.cols) (d : ℕ) :
    T.getByDate d c = none := by
  rw [DTable.getByDate, DTable.get, if_neg]
  exact fun hh => h hh.2

/-! ## The claims -/

/-- C1: the claim (and the function's own docstring) says each performance
series is restricted to the half-open window `[start_date, end_date)`,
`end_date` excluded.  The code slices with `df[start_date:end_date]`,
pandas label-based slicing, which INCLUDES the end label.  On the sample
instance (dates 0,1,2; per-date portfolio return 1 from date 1 on) the
query with window start 0 and end 1 returns a series containing the end
date 1 from all three operations, refuting the exclusive right bound. -/
theorem c1_end_date_included :
    (calculateAssetPerformance stS (.ts 0) (.ts 1)).1 =
      .ok (some ⟨[(0, none), (1, some 2)], "Pt"⟩) ∧
    (calculateCurrencyPerformance stS (.ts 0) (.ts 1)).1 =
      .ok (some ⟨[(0, none), (1, some 1)], "CPt"⟩) ∧
    (calculateTotalPerformance stS (.ts 0) (.ts 1)).1 =
      .ok (some ⟨[(0, none), (1, some 2)], "TPt"⟩) :=
  ⟨by with_unfolding_all rfl, by with_unfolding_all rfl, by with_unfolding_all rfl⟩

/-- C2 counterexample: the claim says the implicit performance value
immediately before the WINDOW start is 1 regardless of where the window
starts.  On the sample instance the portfolio return is 1 at dates 1 and 2;
for the window starting (and ending) at date 2 the first windowed value is
4 = (1+1)·(1+1) — the cumulative product from the start of the full series
— and not 1·(1 + 1) = 2 as the claim predicts. -/
theorem c2_counterexample :
    (calculateAssetPerformance stS (.ts 2) (.ts 2)).1 =
      .ok (some ⟨[(2, some 4)], "Pt"⟩) ∧
    (getAssetPortfolio stS).1 = some [(0, none), (1, some 1), (2, some 1)] ∧
    (4 : ℚ) ≠ 1 * (1 + 1) :=
  ⟨by with_unfolding_all rfl, by with_unfolding_all rfl, by norm_num⟩

/-- C2 (amended): consecutive defined entries of the performance series
satisfy `performance[t] = performance[t-1] * (1 + return[t])`, and the
implicit performance value equal to 1 sits immediately before the start of
the FULL portfolio return series: every defined performance value is the
product of `(1 + return)` over the defined returns from the series start,
and the windowed series is the plain restriction of the full compounded
series to the slice bounds — it is renormalised to 1 only when the window
starts at the beginning of the series. -/
theorem c2_amended (l : List (ℕ × Option ℚ)) (a b : ℕ) :
    (∀ i d1 r1 d2 r2, l[i]? = some (d1, some r1) → l[i + 1]? = some (d2, some r2) →
      ∃ p, (cumprodL 1 (add1L l))[i]? = some (d1, some p) ∧
        (cumprodL 1 (add1L l))[i + 1]? = some (d2, some (p * (r2 + 1)))) ∧
    (∀ i d x, l[i]? = some (d, some x) →
      (cumprodL 1 (add1L l))[i]? = some (d, some (takeProd l i))) ∧
    (∀ d v, (d, v) ∈ sliceSeries (cumprodL 1 (add1L l)) a b ↔
      (d, v) ∈ cumprodL 1 (add1L l) ∧ a ≤ d ∧ d ≤ b) := by
  refine ⟨?_, ?_, fun d v => sliceSeries_mem _ a b d v⟩
  · intro i d1 r1 d2 r2 h1 h2
    refine ⟨takeProd l i, ?_, ?_⟩
    · have h3 := cumprodL_add1_getElem?_some l 1 i d1 r1 h1
      rwa [one_mul] at h3
    · have h3 := cumprodL_add1_getElem?_some l 1 (i + 1) d2 r2 h2
      rwa [one_mul, takeProd_succ_of_some h2] at h3
  · intro i d x h
    have h3 := cumprodL_add1_getElem?_some l 1 i d x h
    rwa [one_mul] at h3

theorem c2_amended_witness :
    ([((0 : ℕ), some (1 : ℚ)), (1, some 1)][0]? = some (0, some 1)) ∧
    ([((0 : ℕ), some (1 : ℚ)), (1, some 1)][1]? = some (1, some 1)) ∧
    (∃ p, (cumprodL 1 (add1L [((0 : ℕ), some (1 : ℚ)), (1, some 1)]))[0]? =
        some (0, some p) ∧
      (cumprodL 1 (add1L [((0 : ℕ), some (1 : ℚ)), (1, some 1)]))[0 + 1]? =
        some (1, some (p * (1 + 1)))) :=
  ⟨rfl, rfl, (c2_amended [(0, some 1), (1, some 1)] 0 1).1 0 0 1 1 1 rfl rfl⟩

/-- C10: an undefined portfolio return leaves the cumulative performance
undefined at that date only; at every later date with a defined return the
performance is defined and equals the product of `(1 + return)` over the
defined returns so far — the undefined factor is skipped, not
propagated. -/
theorem c10_undefined_not_propagated (l : List (ℕ × Option ℚ)) (i j d d' : ℕ) (x : ℚ)
    (_hij : i < j) (hi : l[i]? = some (d, none)) (hj : l[j]? = some (d', some x)) :
    (cumprodL 1 (add1L l))[i]? = some (d, none) ∧
    (cumprodL 1 (add1L l))[j]? = some (d', some (takeProd l j)) := by
  refine ⟨cumprodL_add1_getElem?_none l 1 i d hi, ?_⟩
  have h3 := cumprodL_add1_getElem?_some l 1 j d' x hj
  rwa [one_mul] at h3

theorem c10_undefined_not_propagated_witness :
    (0 < 1) ∧
    ([((0 : ℕ), (none : Option ℚ)), (1, some 1)][0]? = some (0, none)) ∧
    ([((0 : ℕ), (none : Option ℚ)), (1, some 1)][1]? = some (1, some 1)) ∧
    ((cumprodL 1 (add1L [((0 : ℕ), (none : Option ℚ)), (1, some 1)]))[0]? =
        some (0, none) ∧
      (cumprodL 1 (add1L [((0 : ℕ), (none : Option ℚ)), (1, some 1)]))[1]? =
        some (1, some (takeProd [((0 : ℕ), (none : Option ℚ)), (1, some 1)] 1))) :=
  ⟨Nat.zero_lt_one, rfl, rfl,
    c10_undefined_not_propagated [(0, none), (1, some 1)] 0 1 0 1 1 Nat.zero_lt_one rfl rfl⟩

/-- C3: strict aggregation.  For every date of the return table, the
aggregated portfolio return is undefined as soon as any aligned asset's
return or weight is undefined there (nothing is silently skipped), and
when every aligned asset has both values defined it equals the sum over
assets of `return · weight`. -/
theorem c3_strict_aggregation (R W : DTable) (i d : ℕ) (h : R.dates[i]? = some d) :
    ((∃ c ∈ R.cols.union W.cols, R.getByDate d c = none ∨ W.getByDate d c = none) →
      (portfolioAgg R W)[i]? = some (d, none)) ∧
    ((∀ c ∈ R.cols.union W.cols, (R.getByDate d c).isSome ∧ (W.getByDate d c).isSome) →
      (portfolioAgg R W)[i]? = some (d, some (((R.cols.union W.cols).map
        fun c => (R.getByDate d c).getD 0 * (W.getByDate d c).getD 0).sum))) := by
  constructor
  · rintro ⟨c, hc, hnone⟩
    rw [portfolioAgg_getElem? R W i d h]
    have hm : none ∈ (R.cols.union W.cols).map
        fun c => omul (R.getByDate d c) (W.getByDate d c) := by
      refine List.mem_map.mpr ⟨c, hc, ?_⟩
      rcases hnone with h1 | h1
      · rw [h1]; exact omul_none_left _
      · rw [h1]; exact omul_none_right _
    rw [sumStrict_eq_none hm]
  · intro hall
    rw [portfolioAgg_getElem? R W i d h]
    have h1 : ∀ v ∈ (R.cols.union W.cols).map
        fun c => omul (R.getByDate d c) (W.getByDate d c), v.isSome := by
      intro v hv
      obtain ⟨c, hc, rfl⟩ := List.mem_map.mp hv
      obtain ⟨hr, hw⟩ := hall c hc
      obtain ⟨x, hx⟩ := Option.isSome_iff_exists.mp hr
      obtain ⟨y, hy⟩ := Option.isSome_iff_exists.mp hw
      rw [hx, hy]; rfl
    rw [sumStrict_eq_some h1, List.map_map]
    have h2 : List.map ((fun v => v.getD 0) ∘ fun c =>
          omul (R.getByDate d c) (W.getByDate d c)) (R.cols.union W.cols) =
        List.map (fun c => (R.getByDate d c).getD 0 * (W.getByDate d c).getD 0)
          (R.cols.union W.cols) := by
      refine List.map_congr_left ?_
      intro c hc
      obtain ⟨hr, hw⟩ := hall c hc
      obtain ⟨x, hx⟩ := Option.isSome_iff_exists.mp hr
      obtain ⟨y, hy⟩ := Option.isSome_iff_exists.mp hw
      simp [Function.comp, hx, hy, omul]
    rw [h2]

theorem c3_strict_aggregation_witness :
    (rOnly.dates[0]? = some 0) ∧
    (∀ c ∈ rOnly.cols.union rOnly.cols,
      (rOnly.getByDate 0 c).isSome ∧ (rOnly.getByDate 0 c).isSome) ∧
    ((portfolioAgg rOnly rOnly)[0]? = some (0, some (((rOnly.cols.union rOnly.cols).map
      fun c => (rOnly.getByDate 0 c).getD 0 * (rOnly.getByDate 0 c).getD 0).sum))) :=
  ⟨rfl, by decide, (c3_strict_aggregation rOnly rOnly 0 0 rfl).2 (by decide)⟩

/-- C4 counterexample: a return table over asset 10 only and a weights
table over assets 10 and 11, every stored cell defined.  The claim says
asset 11 (present in weights only) contributes nothing and does not by
itself make the aggregate undefined; in fact the column-union alignment
makes 11's return `NaN` everywhere and the strict sum turns the aggregate
at date 0 into `NaN`. -/
theorem c4_counterexample :
    portfolioAgg rOnly wWide = [(0, none)] ∧
    rOnly.get 0 10 = some 1 ∧ wWide.get 0 10 = some 1 ∧ wWide.get 0 11 = some 1 :=
  ⟨rfl, rfl, rfl, rfl⟩

/-- C4 (amended): the aggregation aligns the two tables on the UNION of
their asset columns, not the intersection: an asset identifier present in
exactly one of the two tables yields an undefined product in its column,
and under the strict sum this makes the aggregate undefined at every
date. -/
theorem c4_amended (R W : DTable) (i d c : ℕ) (h : R.dates[i]? = some d)
    (hc : c ∈ R.cols.union W.cols) (hone : c ∉ R.cols ∨ c ∉ W.cols) :
    (portfolioAgg R W)[i]? = some (d, none) := by
  rw [portfolioAgg_getElem? R W i d h]
  have hm : none ∈ (R.cols.union W.cols).map
      fun c => omul (R.getByDate d c) (W.getByDate d c) := by
    refine List.mem_map.mpr ⟨c, hc, ?_⟩
    rcases hone with h1 | h1
    · rw [DTable.getByDate_not_col h1]; exact omul_none_left _
    · rw [DTable.getByDate_not_col h1]; exact omul_none_right _
  rw [sumStrict_eq_none hm]

theorem c4_amended_witness :
    (rOnly.dates[0]? = some 0) ∧ (11 ∈ rOnly.cols.union wWide.cols) ∧
    (11 ∉ rOnly.cols) ∧
    ((portfolioAgg rOnly wWide)[0]? = some (0, none)) :=
  ⟨rfl, by decide, by decide,
    c4_amended rOnly wWide 0 0 11 rfl (by decide) (Or.inl (by decide))⟩

/-- C5: the return transform `df.diff().div(df.shift(1))` leaves every
column of row 0 undefined; at every later row it computes exactly
`Y[t] = (X[t] - X[t-1]) / X[t-1]` (stated for nonzero previous values —
a zero previous value is pandas `inf`/`NaN`, outside this model); and the
identical transform is what the pipeline applies to the prices table, to
the resolved currency table, and to the elementwise product of prices and
resolved currency rates. -/
theorem c5_return_formula :
    (∀ (T : DTable) (c : ℕ), (getAnAttitude T).get 0 c = none) ∧
    (∀ (T : DTable) (i c : ℕ) (x y : ℚ), 0 < i → T.get i c = some x →
      T.get (i - 1) c = some y → y ≠ 0 →
      (getAnAttitude T).get i c = some ((x - y) / y)) ∧
    (∀ s : FormalState, s.dfAsset = none →
      (generateAsset s).dfAsset = attitudeOpt s.raw.prices) ∧
    (∀ s : FormalState, s.rawCurrency = none → s.dfCurrency = none →
      (generateCurrency s).dfCurrency = attitudeOpt (getCurrencyRaw s.raw)) ∧
    (∀ s : FormalState, s.dfTotal = none →
      (generateTotal s).dfTotal = attitudeOpt (getTotalRaw s).1) ∧
    (∀ (s : FormalState) (pr cr : DTable), s.raw.prices = some pr →
      getCurrencyRaw s.raw = some cr → s.rawCurrency = none →
      (getTotalRaw s).1 = some (pr.mulT cr)) := by
  refine ⟨?_, ?_, ?_, ?_, ?_, ?_⟩
  · intro T c
    rw [getAnAttitude, DTable.divSame, DTable.get]
    split
    · have h0 : T.diffT.get 0 c = none := by
        rw [DTable.diffT, DTable.get]
        split <;> simp
      exact h0 ▸ odiv_none_left _
    · rfl
  · intro T i c x y hi hx hy hy0
    obtain ⟨hlen, hcol⟩ := DTable.get_eq_some_imp hx
    have hd : T.diffT.get i c = some (x - y) := by
      rw [DTable.diffT, DTable.get, if_pos ⟨hlen, hcol⟩]
      simp only [Nat.pos_iff_ne_zero.mp hi, if_false]
      rw [hx, hy]
      rfl
    have hs : T.shiftT.get i c = some y := by
      rw [DTable.shiftT, DTable.get, if_pos ⟨hlen, hcol⟩]
      simp only [Nat.pos_iff_ne_zero.mp hi, if_false]
      exact hy
    rw [getAnAttitude, DTable.divSame, DTable.get, if_pos ⟨hlen, hcol⟩]
    simp only []
    rw [hd, hs, odiv, if_neg hy0]
  · intro s h
    simp [generateAsset, h]
  · intro s hR hC
    simp [generateCurrency, hR, hC]
  · intro s hT
    simp [generateTotal, hT]
  · intro s pr cr hp hcr hR
    simp [getTotalRaw, hp, hR, hcr]

theorem c5_return_formula_witness :
    (0 < 1) ∧ (prS.get 1 10 = some 2) ∧ (prS.get (1 - 1) 10 = some 1) ∧
    ((1 : ℚ) ≠ 0) ∧
    ((getAnAttitude prS).get 1 10 = some ((2 - 1) / 1)) ∧
    (stS.dfAsset = none) ∧
    ((generateAsset stS).dfAsset = attitudeOpt stS.raw.prices) :=
  ⟨Nat.zero_lt_one, rfl, rfl, one_ne_zero,
    c5_return_formula.2.1 prS 1 10 2 1 Nat.zero_lt_one rfl rfl one_ne_zero,
    rfl, c5_return_formula.2.2.1 stS rfl⟩

/-- C7: when either date bound of a public query cannot be normalised to a
valid `YYYYMMDD` date (for example a 9-digit string), each of the three
operations raises the format error instead of returning null, and the
instance state — in particular every cached derived table — is returned
exactly as it was. -/
theorem c7_invalid_date_raises (s : FormalState) (a b : DateArg)
    (h : tryConvertDateTime a = none ∨ tryConvertDateTime b = none) :
    calculateAssetPerformance s a b = (.error (), s) ∧
    calculateCurrencyPerformance s a b = (.error (), s) ∧
    calculateTotalPerformance s a b = (.error (), s) := by
  rcases h with h | h
  · cases htb : tryConvertDateTime b <;>
      exact ⟨by simp [calculateAssetPerformance, h, htb],
        by simp [calculateCurrencyPerformance, h, htb],
        by simp [calculateTotalPerformance, h, htb]⟩
  · cases hta : tryConvertDateTime a <;>
      exact ⟨by simp [calculateAssetPerformance, h, hta],
        by simp [calculateCurrencyPerformance, h, hta],
        by simp [calculateTotalPerformance, h, hta]⟩

theorem c7_invalid_date_raises_witness :
    (tryConvertDateTime (.strA "201901200".toList) = none ∨
      tryConvertDateTime (.ts 20190120) = none) ∧
    calculateAssetPerformance stS (.strA "201901200".toList) (.ts 20190120) =
      (.error (), stS) :=
  ⟨Or.inl rfl,
    (c7_invalid_date_raises stS (.strA "201901200".toList) (.ts 20190120)
      (Or.inl rfl)).1⟩

/-- C8: on an instance whose four raw tables are all present and usable
(nonempty, duplicate-free date indices), a query whose normalised start
date is strictly after its end date returns a valid EMPTY series — not
null and not an error — from each of the three operations. -/
theorem c8_empty_window (cur : CurTable) (ex pr w : DTable) (a b : ℕ) (hab : b < a)
    (_hex : ex.dates ≠ []) (_hexn : ex.dates.Nodup) (_hpr : pr.dates ≠ [])
    (_hprn : pr.dates.Nodup) (_hw : w.dates ≠ []) (_hwn : w.dates.Nodup) :
    (calculateAssetPerformance (initState ⟨some cur, some (ex, false), some (pr, false),
      some (w, false)⟩) (.ts a) (.ts b)).1 = .ok (some ⟨[], "Pt"⟩) ∧
    (calculateCurrencyPerformance (initState ⟨some cur, some (ex, false), some (pr, false),
      some (w, false)⟩) (.ts a) (.ts b)).1 = .ok (some ⟨[], "CPt"⟩) ∧
    (calculateTotalPerformance (initState ⟨some cur, some (ex, false), some (pr, false),
      some (w, false)⟩) (.ts a) (.ts b)).1 = .ok (some ⟨[], "TPt"⟩) := by
  obtain ⟨eu, heu⟩ := alignFrame_usable (generalIndex
    ⟨some cur, some (ex, false), some (pr, false), some (w, false)⟩) ex
  obtain ⟨pu, hpu⟩ := alignFrame_usable (generalIndex
    ⟨some cur, some (ex, false), some (pr, false), some (w, false)⟩) pr
  obtain ⟨wu, hwu⟩ := alignFrame_usable (generalIndex
    ⟨some cur, some (ex, false), some (pr, false), some (w, false)⟩) w
  refine ⟨?_, ?_, ?_⟩
  · have h1 := assetPerf_eval (initState ⟨some cur, some (ex, false), some (pr, false),
      some (w, false)⟩) pu wu a b hpu hwu rfl
    rwa [sliceSeries_of_lt _ hab] at h1
  · have h1 := currencyPerf_eval (initState ⟨some cur, some (ex, false), some (pr, false),
      some (w, false)⟩) cur eu wu a b rfl heu hwu rfl rfl
    rwa [sliceSeries_of_lt _ hab] at h1
  · have h1 := totalPerf_eval (initState ⟨some cur, some (ex, false), some (pr, false),
      some (w, false)⟩) pu cur eu wu a b hpu rfl heu hwu rfl rfl
    rwa [sliceSeries_of_lt _ hab] at h1

theorem c8_empty_window_witness :
    (3 < 5) ∧ (exS.dates ≠ [] ∧ exS.dates.Nodup) ∧ (prS.dates ≠ [] ∧ prS.dates.Nodup) ∧
    (wS.dates ≠ [] ∧ wS.dates.Nodup) ∧
    (calculateAssetPerformance (initState ⟨some curS, some (exS, false), some (prS, false),
      some (wS, false)⟩) (.ts 5) (.ts 3)).1 = .ok (some ⟨[], "Pt"⟩) :=
  ⟨by decide, ⟨by decide, by decide⟩, ⟨by decide, by decide⟩, ⟨by decide, by decide⟩,
    (c8_empty_window curS exS prS wS 5 3 (by decide) (by decide) (by decide) (by decide)
      (by decide) (by decide) (by decide)).1⟩

/-- C9: the currency resolver yields null when either the currency
definition or the exchange-rates table is absent; otherwise its result has
exactly one column per asset of the currency definition (with the
exchange dates as index), and every asset column that is entirely
undefined after the merge holds the constant 1 at every date. -/
theorem c9_currency_resolver (raw : RawTables) :
    (∀ cu ex, raw.currencies = some cu → raw.exchanges = some ex →
      getCurrencyRaw raw = some (fillAllNone (mergeStep cu ex)) ∧
      (fillAllNone (mergeStep cu ex)).cols = cu.assets ∧
      (fillAllNone (mergeStep cu ex)).dates = ex.dates ∧
      (∀ c ∈ cu.assets, colAllNone (mergeStep cu ex) c = true →
        ∀ i, i < ex.dates.length → (fillAllNone (mergeStep cu ex)).get i c = some 1)) ∧
    ((raw.currencies = none ∨ raw.exchanges = none) → getCurrencyRaw raw = none) := by
  constructor
  · intro cu ex hc he
    refine ⟨by rw [getCurrencyRaw, hc, he], rfl, rfl, ?_⟩
    intro c hmem hall i hi
    rw [fillAllNone, DTable.get, if_pos ⟨hi, hmem⟩]
    simp [hall]
  · intro h
    rcases h with h | h
    · cases hx : raw.exchanges <;> simp [getCurrencyRaw, h, hx]
    · cases hx : raw.currencies <;> simp [getCurrencyRaw, h, hx]

theorem c9_currency_resolver_witness :
    (11 ∈ curS2.assets) ∧ (colAllNone (mergeStep curS2 exS) 11 = true) ∧
    (0 < exS.dates.length) ∧
    ((fillAllNone (mergeStep curS2 exS)).get 0 11 = some 1) :=
  ⟨by decide, by decide, by decide,
    ((c9_currency_resolver ⟨some curS2, some exS, none, none⟩).1 curS2 exS rfl
      rfl).2.2.2 11 (by decide) (by decide) 0 (by decide)⟩

/-- C6: the missing-table matrix, on freshly constructed instances whose
remaining raw tables are present and usable (nonempty, duplicate-free date
indices — the guards under which the original constructor cannot raise).
An absent or corrupted-index `prices` table makes asset performance null,
currency performance non-null and total performance null; an absent
`currencies` table or an absent or corrupted-index `exchanges` table makes
asset performance non-null, currency performance null and total
performance null; an absent or corrupted-index `weights` table makes all
three null.  Every null is an ordinary `ok` return, never an error. -/
theorem c6_missing_table_matrix (cur : CurTable) (ex pr w : DTable) (a b : ℕ)
    (_hex : ex.dates ≠ []) (_hexn : ex.dates.Nodup) (_hpr : pr.dates ≠ [])
    (_hprn : pr.dates.Nodup) (_hw : w.dates ≠ []) (_hwn : w.dates.Nodup) :
    ((calculateAssetPerformance (initState ⟨some cur, some (ex, false), none,
        some (w, false)⟩) (.ts a) (.ts b)).1 = .ok none ∧
      (∃ ps, (calculateCurrencyPerformance (initState ⟨some cur, some (ex, false), none,
        some (w, false)⟩) (.ts a) (.ts b)).1 = .ok (some ps)) ∧
      (calculateTotalPerformance (initState ⟨some cur, some (ex, false), none,
        some (w, false)⟩) (.ts a) (.ts b)).1 = .ok none) ∧
    ((calculateAssetPerformance (initState ⟨some cur, some (ex, false), some (pr, true),
        some (w, false)⟩) (.ts a) (.ts b)).1 = .ok none ∧
      (∃ ps, (calculateCurrencyPerformance (initState ⟨some cur, some (ex, false),
        some (pr, true), some (w, false)⟩) (.ts a) (.ts b)).1 = .ok (some ps)) ∧
      (calculateTotalPerformance (initState ⟨some cur, some (ex, false), some (pr, true),
        some (w, false)⟩) (.ts a) (.ts b)).1 = .ok none) ∧
    ((∃ ps, (calculateAssetPerformance (initState ⟨none, some (ex, false), some (pr, false),
        some (w, false)⟩) (.ts a) (.ts b)).1 = .ok (some ps)) ∧
      (calculateCurrencyPerformance (initState ⟨none, some (ex, false), some (pr, false),
        some (w, false)⟩) (.ts a) (.ts b)).1 = .ok none ∧
      (calculateTotalPerformance (initState ⟨none, some (ex, false), some (pr, false),
        some (w, false)⟩) (.ts a) (.ts b)).1 = .ok none) ∧
    ((∃ ps, (calculateAssetPerformance (initState ⟨some cur, none, some (pr, false),
        some (w, false)⟩) (.ts a) (.ts b)).1 = .ok (some ps)) ∧
      (calculateCurrencyPerformance (initState ⟨some cur, none, some (pr, false),
        some (w, false)⟩) (.ts a) (.ts b)).1 = .ok none ∧
      (calculateTotalPerformance (initState ⟨some cur, none, some (pr, false),
        some (w, false)⟩) (.ts a) (.ts b)).1 = .ok none) ∧
    ((∃ ps, (calculateAssetPerformance (initState ⟨some cur, some (ex, true),
        some (pr, false), some (w, false)⟩) (.ts a) (.ts b)).1 = .ok (some ps)) ∧
      (calculateCurrencyPerformance (initState ⟨some cur, some (ex, true), some (pr, false),
        some (w, false)⟩) (.ts a) (.ts b)).1 = .ok none ∧
      (calculateTotalPerformance (initState ⟨some cur, some (ex, true), some (pr, false),
        some (w, false)⟩) (.ts a) (.ts b)).1 = .ok none) ∧
    ((calculateAssetPerformance (initState ⟨some cur, some (ex, false), some (pr, false),
        none⟩) (.ts a) (.ts b)).1 = .ok none ∧
      (calculateCurrencyPerformance (initState ⟨some cur, some (ex, false), some (pr, false),
        none⟩) (.ts a) (.ts b)).1 = .ok none ∧
      (calculateTotalPerformance (initState ⟨some cur, some (ex, false), some (pr, false),
        none⟩) (.ts a) (.ts b)).1 = .ok none) ∧
    ((calculateAssetPerformance (initState ⟨some cur, some (ex, false), some (pr, false),
        some (w, true)⟩) (.ts a) (.ts b)).1 = .ok none ∧
      (calculateCurrencyPerformance (initState ⟨some cur, some (ex, false), some (pr, false),
        some (w, true)⟩) (.ts a) (.ts b)).1 = .ok none ∧
      (calculateTotalPerformance (initState ⟨some cur, some (ex, false), some (pr, false),
        some (w, true)⟩) (.ts a) (.ts b)).1 = .ok none) := by
  refine ⟨?_, ?_, ?_, ?_, ?_, ?_, ?_⟩
  · obtain ⟨eu, heu⟩ := alignFrame_usable (generalIndex
      ⟨some cur, some (ex, false), none, some (w, false)⟩) ex
    obtain ⟨wu, hwu⟩ := alignFrame_usable (generalIndex
      ⟨some cur, some (ex, false), none, some (w, false)⟩) w
    exact ⟨assetPerf_none_of_prices _ a b (alignFrame_absent (generalIndex ⟨some cur, some (ex, false), none, some (w, false)⟩)) rfl,
      ⟨_, currencyPerf_eval _ cur eu wu a b rfl heu hwu rfl rfl⟩,
      totalPerf_none_of_prices _ a b (alignFrame_absent (generalIndex ⟨some cur, some (ex, false), none, some (w, false)⟩)) rfl⟩
  · obtain ⟨eu, heu⟩ := alignFrame_usable (generalIndex
      ⟨some cur, some (ex, false), some (pr, true), some (w, false)⟩) ex
    obtain ⟨wu, hwu⟩ := alignFrame_usable (generalIndex
      ⟨some cur, some (ex, false), some (pr, true), some (w, false)⟩) w
    exact ⟨assetPerf_none_of_prices _ a b (alignFrame_corrupted (generalIndex ⟨some cur, some (ex, false), some (pr, true), some (w, false)⟩) pr) rfl,
      ⟨_, currencyPerf_eval _ cur eu wu a b rfl heu hwu rfl rfl⟩,
      totalPerf_none_of_prices _ a b (alignFrame_corrupted (generalIndex ⟨some cur, some (ex, false), some (pr, true), some (w, false)⟩) pr) rfl⟩
  · obtain ⟨pu, hpu⟩ := alignFrame_usable (generalIndex
      ⟨none, some (ex, false), some (pr, false), some (w, false)⟩) pr
    obtain ⟨wu, hwu⟩ := alignFrame_usable (generalIndex
      ⟨none, some (ex, false), some (pr, false), some (w, false)⟩) w
    exact ⟨⟨_, assetPerf_eval _ pu wu a b hpu hwu rfl⟩,
      currencyPerf_none _ a b (Or.inl rfl) rfl rfl,
      totalPerf_none_of_currency _ a b (Or.inl rfl) rfl rfl⟩
  · obtain ⟨pu, hpu⟩ := alignFrame_usable (generalIndex
      ⟨some cur, none, some (pr, false), some (w, false)⟩) pr
    obtain ⟨wu, hwu⟩ := alignFrame_usable (generalIndex
      ⟨some cur, none, some (pr, false), some (w, false)⟩) w
    exact ⟨⟨_, assetPerf_eval _ pu wu a b hpu hwu rfl⟩,
      currencyPerf_none _ a b (Or.inr (alignFrame_absent (generalIndex ⟨some cur, none, some (pr, false), some (w, false)⟩))) rfl rfl,
      totalPerf_none_of_currency _ a b (Or.inr (alignFrame_absent (generalIndex ⟨some cur, none, some (pr, false), some (w, false)⟩))) rfl rfl⟩
  · obtain ⟨pu, hpu⟩ := alignFrame_usable (generalIndex
      ⟨some cur, some (ex, true), some (pr, false), some (w, false)⟩) pr
    obtain ⟨wu, hwu⟩ := alignFrame_usable (generalIndex
      ⟨some cur, some (ex, true), some (pr, false), some (w, false)⟩) w
    exact ⟨⟨_, assetPerf_eval _ pu wu a b hpu hwu rfl⟩,
      currencyPerf_none _ a b (Or.inr (alignFrame_corrupted (generalIndex ⟨some cur, some (ex, true), some (pr, false), some (w, false)⟩) ex)) rfl rfl,
      totalPerf_none_of_currency _ a b (Or.inr (alignFrame_corrupted (generalIndex ⟨some cur, some (ex, true), some (pr, false), some (w, false)⟩) ex)) rfl rfl⟩
  · exact ⟨assetPerf_none_of_weights _ a b (alignFrame_absent (generalIndex ⟨some cur, some (ex, false), some (pr, false), none⟩)) rfl,
      currencyPerf_none_of_weights _ a b (alignFrame_absent (generalIndex ⟨some cur, some (ex, false), some (pr, false), none⟩)) rfl rfl,
      totalPerf_none_of_weights _ a b (alignFrame_absent (generalIndex ⟨some cur, some (ex, false), some (pr, false), none⟩)) rfl rfl⟩
  · exact ⟨assetPerf_none_of_weights _ a b (alignFrame_corrupted (generalIndex ⟨some cur, some (ex, false), some (pr, false), some (w, true)⟩) w) rfl,
      currencyPerf_none_of_weights _ a b (alignFrame_corrupted (generalIndex ⟨some cur, some (ex, false), some (pr, false), some (w, true)⟩) w) rfl rfl,
      totalPerf_none_of_weights _ a b (alignFrame_corrupted (generalIndex ⟨some cur, some (ex, false), some (pr, false), some (w, true)⟩) w) rfl rfl⟩

theorem c6_missing_table_matrix_witness :
    (exS.dates ≠ [] ∧ exS.dates.Nodup ∧ prS.dates ≠ [] ∧ prS.dates.Nodup ∧
      wS.dates ≠ [] ∧ wS.dates.Nodup) ∧
    (calculateAssetPerformance (initState ⟨some curS, some (exS, false), some (prS, false),
      none⟩) (.ts 0) (.ts 2)).1 = .ok none ∧
    (calculateAssetPerformance (initState ⟨some curS, some (exS, false), none,
      some (wS, false)⟩) (.ts 0) (.ts 2)).1 = .ok none :=
  ⟨⟨by decide, by decide, by decide, by decide, by decide, by decide⟩,
    (c6_missing_table_matrix curS exS prS wS 0 2 (by decide) (by decide) (by decide)
      (by decide) (by decide) (by decide)).2.2.2.2.2.1.1,
    (c6_missing_table_matrix curS exS prS wS 0 2 (by decide) (by decide) (by decide)
      (by decide) (by decide) (by decide)).1.1⟩

end PortfolioPerf
